import Mathlib

/-!
Shallow embedding of the DASH streaming-session lifecycle manager of
http-server-rs (src/src/main.rs), together with proofs checking the
specification's claims about it.

Modelling conventions:
- `std::time::Instant` / `SystemTime` timestamps are abstract `Nat` ticks,
  passed in as a `now` parameter to each operation.
- `HashMap<u32, SegmentInfo>` is an association list `SegMap` with map
  semantics (insert replaces, erase removes the key); iteration order is
  irrelevant to every property proved here, matching the HashMap contract.
- Subprocess effects (`Child` spawn / kill) are recorded in an explicit
  event list `List PEvent`; a `Child` handle is a `Nat` pid drawn from a
  `next_pid` counter carried in the session state.  Pipeline launches that
  the session code performs are modelled as succeeding (their internal
  failure modes are modelled separately by `init_dash_pipeline_from_segment`
  over a `PipelineEnv`).
- Filesystem paths are `RPath`, a path already split into the part before
  the final extension (`stem`, which includes any directory components) and
  the extension itself, mirroring `Path::with_extension` semantics.
  Filesystem existence checks are an oracle `fs : RPath → Bool`.
- On-disk artifact deletion (`std::fs::remove_file` in
  `cleanup_old_segments`) and the scratch `TempDir` are not modelled; no
  claim below depends on them.
-/

/-- Mirrors `struct SegmentInfo` (main.rs:44-49). -/
structure SegmentInfo where
  number : Nat
  lastAccessed : Nat
  generated : Bool
deriving DecidableEq

/-- The session's `segments: HashMap<u32, SegmentInfo>` as an association list. -/
abbrev SegMap := List (Nat × SegmentInfo)

/-- `HashMap::get`: the value stored at key `j`, if any. -/
def segLookup : SegMap → Nat → Option SegmentInfo
  | [], _ => none
  | (k, v) :: rest, j => if j = k then some v else segLookup rest j

/-- `HashMap::contains_key`. -/
def segContains (m : SegMap) (k : Nat) : Bool :=
  (segLookup m k).isSome

/-- `HashMap::insert`: replaces the entry at `k` if present, else adds it. -/
def segInsert : SegMap → Nat → SegmentInfo → SegMap
  | [], k, v => [(k, v)]
  | (k0, v0) :: rest, k, v =>
      if k = k0 then (k0, v) :: rest else (k0, v0) :: segInsert rest k v

/-- `HashMap::remove`: removes every entry at `k` (a map never holds two). -/
def segErase : SegMap → Nat → SegMap
  | [], _ => []
  | (k0, v0) :: rest, k =>
      if k0 = k then segErase rest k else (k0, v0) :: segErase rest k

/-- `get_mut(&k)` followed by `info.last_accessed = now`; no-op when absent. -/
def segSetLastAccessed : SegMap → Nat → Nat → SegMap
  | [], _, _ => []
  | (k0, v0) :: rest, k, now =>
      if k0 = k then (k0, { v0 with lastAccessed := now }) :: segSetLastAccessed rest k now
      else (k0, v0) :: segSetLastAccessed rest k now

/-- `get_mut(&k)` followed by `info.generated = g`; no-op when absent. -/
def segSetGenerated : SegMap → Nat → Bool → SegMap
  | [], _, _ => []
  | (k0, v0) :: rest, k, g =>
      if k0 = k then (k0, { v0 with generated := g }) :: segSetGenerated rest k g
      else (k0, v0) :: segSetGenerated rest k g

/-- `HashMap::keys` collected to a list. -/
def segKeys (m : SegMap) : List Nat :=
  m.map Prod.fst

/-- The inclusive Rust range `a..=b` as a list (empty when `a > b`). -/
def rangeIncl (a b : Nat) : List Nat :=
  List.range' a (b + 1 - a)

/-- One subprocess-layer effect of a session operation: spawning a pipeline
(recording the segment index its first stage seeks to) or killing a child. -/
inductive PEvent where
  | spawn (pid : Nat) (startSegment : Nat)
  | kill (pid : Nat)
deriving DecidableEq

/-- A filesystem path split at its final extension; `stem` keeps directories.
`Path::with_extension("")` is `⟨stem, none⟩`, `with_extension(e)` is
`⟨stem, some e⟩`. -/
structure RPath where
  stem : String
  ext : Option String
deriving DecidableEq

/-- `Path::with_extension` on an `RPath`. -/
def RPath.withExtension (p : RPath) (e : String) : RPath :=
  { stem := p.stem, ext := if e = "" then none else some e }

/-- Mirrors `struct DashStream` (main.rs:52-64); `temp_dir` and `config` are
not modelled, and `next_pid` is the modelling device supplying fresh pids. -/
structure DashStream where
  source_path : RPath
  ffmpeg_process : Option Nat
  created_at : Nat
  last_accessed : Nat
  segments : SegMap
  current_segment : Nat
  max_segments : Nat
  window_size : Nat
  initial_segments : Nat
  next_pid : Nat
deriving DecidableEq

/-- `DashStream::new` (main.rs:68-85). -/
def DashStream.new (source_path : RPath) (now : Nat) : DashStream :=
  { source_path := source_path
    ffmpeg_process := none
    created_at := now
    last_accessed := now
    segments := []
    current_segment := 0
    max_segments := 30
    window_size := 5
    initial_segments := 5
    next_pid := 0 }

/-- The `if let Some(mut process) = self.ffmpeg_process.take() { kill; wait }`
block shared by `ensure_segment_window` and `restart_ffmpeg_at_segment`. -/
def killCurrent (s : DashStream) : DashStream × List PEvent :=
  match s.ffmpeg_process with
  | some p => ({ s with ffmpeg_process := none }, [PEvent.kill p])
  | none => (s, [])

/-- A successful `init_dash_pipeline_from_segment` call as the session sees
it: a fresh child handle is produced and retained by the caller. -/
def spawnPipeline (s : DashStream) (startSegment : Nat) : DashStream × List PEvent :=
  ({ s with ffmpeg_process := some s.next_pid, next_pid := s.next_pid + 1 },
   [PEvent.spawn s.next_pid startSegment])

/-- The seek-branch repopulation loop of `request_segment` (main.rs:125-134):
`for i in a..=b { insert(i, SegmentInfo { number: i, now, generated: false }) }`. -/
def insertRange (m : SegMap) (a b : Nat) (now : Nat) : SegMap :=
  (rangeIncl a b).foldl
    (fun acc i => segInsert acc i { number := i, lastAccessed := now, generated := false }) m

/-- The gap-filling loop of `request_segment` (main.rs:138-149): as
`insertRange` but an already tracked index is left untouched. -/
def insertRangeIfAbsent (m : SegMap) (a b : Nat) (now : Nat) : SegMap :=
  (rangeIncl a b).foldl
    (fun acc i =>
      if segContains acc i then acc
      else segInsert acc i { number := i, lastAccessed := now, generated := false }) m

/-- `DashStream::init_stream` (main.rs:87-107), with the pipeline launch
modelled as succeeding. -/
def DashStream.init_stream (s : DashStream) (now : Nat) : DashStream × List PEvent :=
  if s.ffmpeg_process.isNone then
    let r := spawnPipeline s 0
    let segs := (List.range s.initial_segments).foldl
      (fun acc i => segInsert acc i { number := i, lastAccessed := now, generated := false })
      r.1.segments
    ({ r.1 with segments := segs }, r.2)
  else (s, [])

/-- `DashStream::cleanup_old_segments` (main.rs:165-179); the best-effort
on-disk chunk deletion is not modelled. -/
def DashStream.cleanup_old_segments (s : DashStream) : DashStream :=
  let bound := s.current_segment - s.max_segments
  let to_remove := (segKeys s.segments).filter (fun k => decide (k < bound))
  { s with segments := to_remove.foldl segErase s.segments }

/-- `DashStream::ensure_segment_window` (main.rs:181-208). -/
def DashStream.ensure_segment_window (s : DashStream) : DashStream × List PEvent :=
  let target := s.current_segment + s.window_size
  if s.segments.any (fun p => !p.2.generated && decide (p.2.number ≤ target)) then
    let k := killCurrent s
    let r := spawnPipeline k.1 s.current_segment
    let segs := (rangeIncl s.current_segment target).foldl
      (fun acc i => segSetGenerated acc i true) r.1.segments
    ({ r.1 with segments := segs }, k.2 ++ r.2)
  else (s, [])

/-- `DashStream::restart_ffmpeg_at_segment` (main.rs:210-227). -/
def DashStream.restart_ffmpeg_at_segment (s : DashStream) (start_segment : Nat) :
    DashStream × List PEvent :=
  let k := killCurrent s
  let r := spawnPipeline k.1 start_segment
  let segs := r.1.segments.map
    (fun p => (p.1, { number := p.2.number, lastAccessed := p.2.lastAccessed, generated := false }))
  ({ r.1 with segments := segs }, k.2 ++ r.2)

/-- The `let is_seek = ...` classification of `request_segment`
(main.rs:116-117); `Nat` subtraction is Rust's `saturating_sub`. -/
def DashStream.is_seek (s : DashStream) (segment_number : Nat) : Bool :=
  decide (segment_number > s.current_segment + s.max_segments)
    || decide (segment_number < s.current_segment - s.max_segments)

/-- The trailing `if let Some(info) = get_mut { info.last_accessed = now }`
of `request_segment` (main.rs:158-160). -/
def touchSegment (s : DashStream) (k : Nat) (now : Nat) : DashStream :=
  { s with segments := segSetLastAccessed s.segments k now }

/-- `DashStream::request_segment` (main.rs:113-163). -/
def DashStream.request_segment (s0 : DashStream) (segment_number : Nat) (now : Nat) :
    DashStream × List PEvent :=
  let s := { s0 with last_accessed := now }
  if s.is_seek segment_number then
    let s1 := { s with current_segment := segment_number, segments := [] }
    let start_segment := segment_number - 2
    let filled := insertRange s1.segments start_segment (segment_number + s1.window_size) now
    let s2 := { s1 with segments := filled }
    let r := s2.restart_ffmpeg_at_segment start_segment
    (touchSegment r.1 segment_number now, r.2)
  else if segContains s.segments segment_number = false then
    let filled := insertRangeIfAbsent s.segments s.current_segment
      (segment_number + s.window_size) now
    let s1 := { s with segments := filled }
    if segment_number > s1.current_segment then
      let s2 := ({ s1 with current_segment := segment_number }).cleanup_old_segments
      let r := s2.ensure_segment_window
      (touchSegment r.1 segment_number now, r.2)
    else
      (touchSegment s1 segment_number now, [])
  else
    (touchSegment s segment_number now, [])

/-- `StreamManager::get_stream_id` (main.rs:257-259): the requested path with
its extension stripped (`with_extension("")`), rendered as a string. -/
def get_stream_id (path : RPath) : String :=
  path.stem

/-- Mirrors `struct StreamManager` (main.rs:230-233); the map is an
association list keyed by stream-id. -/
structure StreamManager where
  streams : List (String × DashStream)
  max_idle_time : Nat
deriving DecidableEq

/-- `HashMap::get` on the registry map. -/
def mgrLookup : List (String × DashStream) → String → Option DashStream
  | [], _ => none
  | (k, v) :: rest, j => if j = k then some v else mgrLookup rest j

/-- `HashMap::contains_key` on the registry map. -/
def mgrContains (m : List (String × DashStream)) (k : String) : Bool :=
  (mgrLookup m k).isSome

/-- `HashMap::insert` on the registry map. -/
def mgrInsert : List (String × DashStream) → String → DashStream → List (String × DashStream)
  | [], k, v => [(k, v)]
  | (k0, v0) :: rest, k, v =>
      if k = k0 then (k0, v) :: rest else (k0, v0) :: mgrInsert rest k v

/-- `get_mut(&id).unwrap()` followed by `stream.update_last_accessed()`
(main.rs:252-253); no-op when the id is absent. -/
def mgrTouch : List (String × DashStream) → String → Nat → List (String × DashStream)
  | [], _, _ => []
  | (k0, v0) :: rest, k, now =>
      if k0 = k then (k0, { v0 with last_accessed := now }) :: mgrTouch rest k now
      else (k0, v0) :: mgrTouch rest k now

/-- The registry map's key list. -/
def mgrKeys (m : List (String × DashStream)) : List String :=
  m.map Prod.fst

/-- `StreamManager::find_source_video` (main.rs:261-273): probe
`base.mp4` then `base.mkv` against the filesystem oracle; the first
existing file wins, otherwise a NotFound error. -/
def find_source_video (fs : RPath → Bool) (requested_path : RPath) : Except String RPath :=
  let base := requested_path.withExtension ""
  if fs (base.withExtension "mp4") then Except.ok (base.withExtension "mp4")
  else if fs (base.withExtension "mkv") then Except.ok (base.withExtension "mkv")
  else Except.error "No matching video file found"

/-- `StreamManager::get_or_create_stream` (main.rs:243-255).  The returned
`&mut DashStream` is modelled as the stream-id into the updated registry
(the refreshed session is `mgrLookup result.streams id`). -/
def StreamManager.get_or_create_stream (m : StreamManager) (fs : RPath → Bool)
    (requested_path : RPath) (now : Nat) : Except String (String × StreamManager) :=
  let stream_id := get_stream_id requested_path
  if mgrContains m.streams stream_id = false then
    match find_source_video fs requested_path with
    | Except.error e => Except.error e
    | Except.ok source_path =>
        let inserted := mgrInsert m.streams stream_id (DashStream.new source_path now)
        Except.ok (stream_id, { m with streams := mgrTouch inserted stream_id now })
  else
    Except.ok (stream_id, { m with streams := mgrTouch m.streams stream_id now })

/-- `str::strip_prefix` at the character level: `stripChars pre cs` is the
remainder of `cs` after `pre`, or `none` when `cs` does not start with
`pre`. -/
def stripChars : List Char → List Char → Option (List Char)
  | [], rest => some rest
  | _ :: _, [] => none
  | p :: ps, c :: cs => if c = p then stripChars ps cs else none

/-- `str::strip_suffix` at the character level, via `stripChars` on the
reversed sequences. -/
def stripSuffixChars (suf cs : List Char) : Option (List Char) :=
  (stripChars suf.reverse cs.reverse).map List.reverse

/-- A non-empty all-digit character sequence read as a decimal number. -/
def parseDigits (cs : List Char) : Option Nat :=
  if cs = [] then none
  else if cs.all (fun c => c.isDigit) then
    some (cs.foldl (fun acc c => acc * 10 + (c.toNat - 48)) 0)
  else none

/-- Rust `str::parse::<u32>`: an optional leading `+`, then one or more
ASCII digits, value below `2^32`. -/
def rustParseU32 (cs : List Char) : Option Nat :=
  let digits :=
    match cs with
    | h :: t => if h = '+' then t else cs
    | [] => cs
  match parseDigits digits with
  | none => none
  | some n => if n < 2 ^ 32 then some n else none

/-- The segment-number parser of `serve_segment` (main.rs:786-790):
`strip_prefix("chunk-")`, then `strip_suffix(".m4s")`, then
`parse::<u32>()`, each failure propagating as `none`. -/
def parse_segment_number (segment_name : String) : Option Nat :=
  match stripChars "chunk-".data segment_name.data with
  | none => none
  | some rest =>
    match stripSuffixChars ".m4s".data rest with
    | none => none
    | some core => rustParseU32 core

/-- What `serve_segment` does with a segment filename before any filesystem
polling: reject it as invalid input, or call `request_segment n`. -/
inductive ServeSegmentAction where
  | rejected
  | requested (n : Nat)
deriving DecidableEq

/-- The gate at the top of `serve_segment` (main.rs:785-795): a filename the
parser rejects yields a BadRequest before `request_segment`, the filesystem
poll, or any session mutation. -/
def serve_segment_action (segment_name : String) : ServeSegmentAction :=
  match parse_segment_number segment_name with
  | none => ServeSegmentAction.rejected
  | some n => ServeSegmentAction.requested n

/-- The observable outcomes of one `init_dash_pipeline_from_segment` call. -/
inductive PipelineError where
  | invalidInput
  | segmentationFailed
  | spawnFailed
deriving DecidableEq

/-- The environment a pipeline launch runs against: whether the input path
encodes to UTF-8 (`to_str()`), whether the synchronous stage-1 segmentation
run exits successfully, and whether the stage-2 DASH packaging spawn
succeeds. -/
structure PipelineEnv where
  path_encodable : Bool
  stage1_success : Bool
  stage2_spawn_ok : Bool
deriving DecidableEq

/-- `init_dash_pipeline_from_segment` (main.rs:332-455) as the caller
observes it: the path-encoding check, then the synchronous segmentation
pass, then the packaging spawn; the child handle (a pid) and manifest path
are produced only when all three succeed.  Intermediate filesystem writes
(`filelist.txt`, the segments directory) are not modelled. -/
def init_dash_pipeline_from_segment (env : PipelineEnv) (pid : Nat) (start_segment : Nat) :
    Except PipelineError (Nat × String) :=
  if env.path_encodable = false then Except.error PipelineError.invalidInput
  else if env.stage1_success = false then Except.error PipelineError.segmentationFailed
  else if env.stage2_spawn_ok = false then Except.error PipelineError.spawnFailed
  else Except.ok (pid, "playlist.mpd")

/-- Scanning a subprocess event list: `alive` is the session's currently
held child.  A scan fails exactly when a spawn happens while a child is
still held; a kill of the held child releases it. -/
def eventsOk : Option Nat → List PEvent → Bool
  | _, [] => true
  | alive, PEvent.kill p :: rest =>
      eventsOk (if alive = some p then none else alive) rest
  | alive, PEvent.spawn p _ :: rest =>
      match alive with
      | some _ => false
      | none => eventsOk (some p) rest

/-- The kill events `killCurrent` emits from a given held child. -/
def kills : Option Nat → List PEvent
  | some p => [PEvent.kill p]
  | none => []

/-- Replay a list of segment requests (all at tick 0), collecting every
subprocess event in order. -/
def runRequests (s : DashStream) (ns : List Nat) : DashStream × List PEvent :=
  ns.foldl (fun acc n =>
    let r := acc.1.request_segment n 0
    (r.1, acc.2 ++ r.2)) (s, [])

/-- A session immediately after `DashStream::new` and one `init_stream`
call, as `serve_manifest` produces it for source `movie.mp4`. -/
def freshInitSession : DashStream :=
  ((DashStream.new { stem := "movie", ext := some "mp4" } 0).init_stream 0).1

/-- `freshInitSession` after the sequential requests `0,1,2,3,4`. -/
def afterSequential4 : DashStream :=
  (runRequests freshInitSession [0, 1, 2, 3, 4]).1

/-- The tracked segment numbers whose `generated` flag is set, as a finset. -/
def generatedKeys (s : DashStream) : Finset Nat :=
  (s.segments.filter (fun p => p.2.generated)).map Prod.fst |>.toFinset

/-- The manifest request path `movie.mpd`. -/
def manifest_path : RPath :=
  { stem := "movie", ext := some "mpd" }

/-- The published media-segment request path `chunk-stream0-4.m4s` for
representation 0, segment 4 (spec section 6's HTTP surface). -/
def chunk_path : RPath :=
  { stem := "chunk-stream0-4", ext := some "m4s" }

/-- A demo filesystem on which exactly `movie.mp4` exists. -/
def demo_fs : RPath → Bool :=
  fun p => decide (p = { stem := "movie", ext := some "mp4" })

/-- An empty registry with the 300 s idle timeout of `main`. -/
def mgr0 : StreamManager :=
  { streams := [], max_idle_time := 300 }

/-- The registry after serving the manifest request for `movie.mpd`. -/
def mgr1 : StreamManager :=
  match mgr0.get_or_create_stream demo_fs manifest_path 0 with
  | Except.ok r => r.2
  | Except.error _ => mgr0

theorem segLookup_insert (m : SegMap) (j : Nat) (v : SegmentInfo) (k : Nat) :
    segLookup (segInsert m j v) k = if k = j then some v else segLookup m k := by
  induction m with
  | nil => by_cases h : k = j <;> simp [segInsert, segLookup, h]
  | cons hd tl ih =>
    obtain ⟨k0, v0⟩ := hd
    by_cases hj : j = k0
    · subst hj
      by_cases hk : k = j <;> simp [segInsert, segLookup, hk]
    · by_cases hk : k = k0
      · subst hk
        simp [segInsert, segLookup, hj, Ne.symm hj]
      · simp [segInsert, segLookup, hj, hk, ih]

theorem segLookup_erase (m : SegMap) (j k : Nat) :
    segLookup (segErase m j) k = if k = j then none else segLookup m k := by
  induction m with
  | nil => simp [segErase, segLookup]
  | cons hd tl ih =>
    obtain ⟨k0, v0⟩ := hd
    by_cases h0 : k0 = j
    · subst h0
      by_cases hk : k = k0
      · subst hk
        simpa [segErase, segLookup] using ih
      · simpa [segErase, segLookup, hk] using ih
    · by_cases hk : k = k0
      · subst hk
        simp [segErase, segLookup, h0, Ne.symm h0]
      · simp [segErase, segLookup, h0, hk, ih]

theorem segLookup_foldl_insert (f : Nat → SegmentInfo) (l : List Nat) (m : SegMap) (k : Nat) :
    segLookup (l.foldl (fun acc i => segInsert acc i (f i)) m) k =
      if k ∈ l then some (f k) else segLookup m k := by
  induction l generalizing m with
  | nil => simp
  | cons i rest ih =>
    by_cases hr : k ∈ rest
    · simp [List.foldl_cons, ih, hr]
    · by_cases hi : k = i
      · subst hi
        simp [List.foldl_cons, ih, hr, segLookup_insert]
      · simp [List.foldl_cons, ih, hr, hi, segLookup_insert]

theorem segLookup_foldl_erase (l : List Nat) (m : SegMap) (k : Nat) :
    segLookup (l.foldl segErase m) k = if k ∈ l then none else segLookup m k := by
  induction l generalizing m with
  | nil => simp
  | cons i rest ih =>
    by_cases hr : k ∈ rest
    · simp [List.foldl_cons, ih, hr]
    · by_cases hi : k = i
      · subst hi
        simp [List.foldl_cons, ih, hr, segLookup_erase]
      · simp [List.foldl_cons, ih, hr, hi, segLookup_erase]

theorem mem_rangeIncl {a b k : Nat} : k ∈ rangeIncl a b ↔ a ≤ k ∧ k ≤ b := by
  unfold rangeIncl
  rw [List.mem_range'_1]
  omega

theorem rangeIncl_eq_nil {a b : Nat} (h : b < a) : rangeIncl a b = [] := by
  unfold rangeIncl
  rw [show b + 1 - a = 0 by omega]
  rfl

theorem segLookup_setLastAccessed (m : SegMap) (j t k : Nat) :
    segLookup (segSetLastAccessed m j t) k =
      if k = j then (segLookup m k).map (fun v => { v with lastAccessed := t })
      else segLookup m k := by
  induction m with
  | nil => by_cases hk : k = j <;> simp [segSetLastAccessed, segLookup, hk]
  | cons hd tl ih =>
    obtain ⟨k0, v0⟩ := hd
    by_cases h0 : k0 = j
    · subst h0
      by_cases hk : k = k0
      · subst hk
        simp [segSetLastAccessed, segLookup]
      · simpa [segSetLastAccessed, segLookup, hk] using ih
    · by_cases hk : k = k0
      · subst hk
        simp [segSetLastAccessed, segLookup, h0, Ne.symm h0]
      · simpa [segSetLastAccessed, segLookup, h0, hk] using ih

theorem segLookup_setGenerated (m : SegMap) (j k : Nat) (g : Bool) :
    segLookup (segSetGenerated m j g) k =
      if k = j then (segLookup m k).map (fun v => { v with generated := g })
      else segLookup m k := by
  induction m with
  | nil => by_cases hk : k = j <;> simp [segSetGenerated, segLookup, hk]
  | cons hd tl ih =>
    obtain ⟨k0, v0⟩ := hd
    by_cases h0 : k0 = j
    · subst h0
      by_cases hk : k = k0
      · subst hk
        simp [segSetGenerated, segLookup]
      · simpa [segSetGenerated, segLookup, hk] using ih
    · by_cases hk : k = k0
      · subst hk
        simp [segSetGenerated, segLookup, h0, Ne.symm h0]
      · simpa [segSetGenerated, segLookup, h0, hk] using ih

theorem segSetLastAccessed_of_none (m : SegMap) (j t : Nat)
    (h : segLookup m j = none) : segSetLastAccessed m j t = m := by
  induction m with
  | nil => rfl
  | cons hd tl ih =>
    obtain ⟨k0, v0⟩ := hd
    by_cases h0 : j = k0
    · subst h0
      simp [segLookup] at h
    · simp only [segLookup, if_neg h0] at h
      rw [segSetLastAccessed, if_neg (Ne.symm h0), ih h]

theorem segLookup_mapValues (g : SegmentInfo → SegmentInfo) (m : SegMap) (k : Nat) :
    segLookup (m.map (fun p => (p.1, g p.2))) k = (segLookup m k).map g := by
  induction m with
  | nil => simp [segLookup]
  | cons hd tl ih =>
    obtain ⟨k0, v0⟩ := hd
    by_cases hk : k = k0 <;> simp [segLookup, hk, ih]

theorem segLookup_none_of_not_mem (m : SegMap) (k : Nat) (h : k ∉ segKeys m) :
    segLookup m k = none := by
  induction m with
  | nil => rfl
  | cons hd tl ih =>
    obtain ⟨k0, v0⟩ := hd
    simp [segKeys] at h
    simp [segLookup, h.1, ih (by simp [segKeys, h.2])]

theorem segKeys_cons (k0 : Nat) (v0 : SegmentInfo) (tl : SegMap) :
    segKeys ((k0, v0) :: tl) = k0 :: segKeys tl := rfl

theorem mem_segKeys_erase {m : SegMap} {j k : Nat} :
    k ∈ segKeys (segErase m j) ↔ k ∈ segKeys m ∧ k ≠ j := by
  induction m with
  | nil => simp [segErase, segKeys]
  | cons hd tl ih =>
    obtain ⟨k0, v0⟩ := hd
    by_cases h0 : k0 = j
    · subst h0
      rw [segErase, if_pos rfl, ih, segKeys_cons, List.mem_cons]
      constructor
      · rintro ⟨hm, hne⟩
        exact ⟨Or.inr hm, hne⟩
      · rintro ⟨hm, hne⟩
        rcases hm with h | h
        · exact absurd h hne
        · exact ⟨h, hne⟩
    · rw [segErase, if_neg h0, segKeys_cons, segKeys_cons, List.mem_cons, List.mem_cons, ih]
      by_cases hk : k = k0
      · subst hk
        simp [h0]
      · simp [hk]

theorem mem_segKeys_foldl_erase {l : List Nat} {m : SegMap} {k : Nat} :
    k ∈ segKeys (l.foldl segErase m) ↔ k ∈ segKeys m ∧ k ∉ l := by
  induction l generalizing m with
  | nil => simp
  | cons i rest ih =>
    simp only [List.foldl_cons, ih, mem_segKeys_erase, List.mem_cons]
    constructor
    · rintro ⟨⟨hm, hne⟩, hr⟩
      exact ⟨hm, by simp [hne, hr]⟩
    · rintro ⟨hm, hni⟩
      simp at hni
      exact ⟨⟨hm, hni.1⟩, hni.2⟩

theorem restart_segments (s : DashStream) (st : Nat) :
    (s.restart_ffmpeg_at_segment st).1.segments =
      s.segments.map
        (fun p =>
          (p.1, { number := p.2.number, lastAccessed := p.2.lastAccessed, generated := false })) := by
  cases hp : s.ffmpeg_process <;>
    simp [DashStream.restart_ffmpeg_at_segment, killCurrent, spawnPipeline, hp]

theorem restart_current (s : DashStream) (st : Nat) :
    (s.restart_ffmpeg_at_segment st).1.current_segment = s.current_segment := by
  cases hp : s.ffmpeg_process <;>
    simp [DashStream.restart_ffmpeg_at_segment, killCurrent, spawnPipeline, hp]

theorem restart_ffmpeg (s : DashStream) (st : Nat) :
    (s.restart_ffmpeg_at_segment st).1.ffmpeg_process = some s.next_pid := by
  cases hp : s.ffmpeg_process <;>
    simp [DashStream.restart_ffmpeg_at_segment, killCurrent, spawnPipeline, hp]

theorem restart_events (s : DashStream) (st : Nat) :
    (s.restart_ffmpeg_at_segment st).2 =
      kills s.ffmpeg_process ++ [PEvent.spawn s.next_pid st] := by
  cases hp : s.ffmpeg_process <;>
    simp [DashStream.restart_ffmpeg_at_segment, killCurrent, spawnPipeline, kills, hp]

theorem ensure_events (s : DashStream) :
    s.ensure_segment_window.2 = [] ∨
    s.ensure_segment_window.2 =
      kills s.ffmpeg_process ++ [PEvent.spawn s.next_pid s.current_segment] := by
  cases hc : s.segments.any
      (fun p => !p.2.generated && decide (p.2.number ≤ s.current_segment + s.window_size)) with
  | false =>
    left
    simp [DashStream.ensure_segment_window, hc]
  | true =>
    right
    cases hp : s.ffmpeg_process <;>
      simp [DashStream.ensure_segment_window, hc, killCurrent, spawnPipeline, kills, hp]

theorem eventsOk_kills_spawn (o : Option Nat) (pid st : Nat) :
    eventsOk o (kills o ++ [PEvent.spawn pid st]) = true := by
  cases o <;> simp [kills, eventsOk]

theorem request_events (s : DashStream) (n now : Nat) :
    (s.request_segment n now).2 = [] ∨
    ∃ st, (s.request_segment n now).2 =
      kills s.ffmpeg_process ++ [PEvent.spawn s.next_pid st] := by
  by_cases hs : ({ s with last_accessed := now } : DashStream).is_seek n = true
  · right
    refine ⟨n - 2, ?_⟩
    simp [DashStream.request_segment, hs, restart_events]
  · rw [Bool.not_eq_true] at hs
    by_cases hc : segContains s.segments n = false
    · by_cases hgt : n > s.current_segment
      · have := ensure_events
          (({ s with last_accessed := now,
                     segments := insertRangeIfAbsent s.segments s.current_segment
                       (n + s.window_size) now,
                     current_segment := n } : DashStream).cleanup_old_segments)
        rcases this with h | h
        · left
          simpa [DashStream.request_segment, hs, hc, hgt,
            DashStream.cleanup_old_segments] using h
        · right
          refine ⟨n, ?_⟩
          simpa [DashStream.request_segment, hs, hc, hgt,
            DashStream.cleanup_old_segments] using h
      · left
        simp [DashStream.request_segment, hs, hc, hgt]
    · left
      simp [DashStream.request_segment, hs, hc]

theorem segLookup_insertRange (m : SegMap) (a b now k : Nat) :
    segLookup (insertRange m a b now) k =
      if a ≤ k ∧ k ≤ b then some { number := k, lastAccessed := now, generated := false }
      else segLookup m k := by
  unfold insertRange
  rw [segLookup_foldl_insert
    (fun i => { number := i, lastAccessed := now, generated := false })]
  by_cases hk : k ∈ rangeIncl a b
  · rw [if_pos hk, if_pos (mem_rangeIncl.mp hk)]
  · rw [if_neg hk, if_neg (fun hh => hk (mem_rangeIncl.mpr hh))]

/-- Claim C6: every session operation that can start a pipeline — initStream,
requestSegment, ensureWindow and restartAt — emits a subprocess event trace in
which no spawn happens while a child is still held: starting from the
session's currently held child, any spawn is preceded by the kill of that
child, so at most one transcoder subprocess is alive per session at any
time. -/
theorem claim_c6_single_subprocess (s : DashStream) (n start now : Nat) :
    eventsOk s.ffmpeg_process (s.init_stream now).2 = true ∧
    eventsOk s.ffmpeg_process (s.request_segment n now).2 = true ∧
    eventsOk s.ffmpeg_process s.ensure_segment_window.2 = true ∧
    eventsOk s.ffmpeg_process (s.restart_ffmpeg_at_segment start).2 = true := by
  refine ⟨?_, ?_, ?_, ?_⟩
  · cases hp : s.ffmpeg_process with
    | none => simp [DashStream.init_stream, hp, spawnPipeline, eventsOk]
    | some p => simp [DashStream.init_stream, hp, eventsOk]
  · rcases request_events s n now with h | ⟨st, h⟩
    · simp [h, eventsOk]
    · rw [h]
      exact eventsOk_kills_spawn _ _ _
  · rcases ensure_events s with h | h
    · simp [h, eventsOk]
    · rw [h]
      exact eventsOk_kills_spawn _ _ _
  · rw [restart_events]
    exact eventsOk_kills_spawn _ _ _

/-- Claim C5: `request_segment` classifies `n` as a seek exactly when
`n > currentSegment + maxSegments` or `n < currentSegment − maxSegments`
(the subtraction clamped at 0 by `saturating_sub`), and a forward request
with `n ≤ currentSegment + maxSegments` is never classified as a seek. -/
theorem claim_c5_seek_classification (s : DashStream) (n : Nat) :
    (s.is_seek n = true ↔
      (n > s.current_segment + s.max_segments ∨
       n < s.current_segment - s.max_segments)) ∧
    (s.current_segment ≤ n → n ≤ s.current_segment + s.max_segments →
      s.is_seek n = false) := by
  constructor
  · simp [DashStream.is_seek]
  · intro hlo hhi
    have hx1 : ¬ n > s.current_segment + s.max_segments := by omega
    have hx2 : ¬ n < s.current_segment - s.max_segments := by omega
    simp [DashStream.is_seek, hx1, hx2]

/-- Witness for C5: on a fresh session (currentSegment 0, maxSegments 30) the
in-band forward request 20 is not classified as a seek. -/
theorem claim_c5_witness :
    (DashStream.new { stem := "movie", ext := some "mp4" } 0).is_seek 20 = false :=
  (claim_c5_seek_classification
    (DashStream.new { stem := "movie", ext := some "mp4" } 0) 20).2
    (by decide) (by decide)

/-- Claim C7: after an eviction pass, no tracked segment number is below
`currentSegment − maxSegments` (clamped at 0), and exactly the entries below
that bound were removed — every other entry is kept unchanged. -/
theorem claim_c7_eviction (s : DashStream) :
    (∀ k, k ∈ segKeys s.cleanup_old_segments.segments →
        ¬ k < s.current_segment - s.max_segments) ∧
    (∀ k, segLookup s.cleanup_old_segments.segments k =
        if k < s.current_segment - s.max_segments then none
        else segLookup s.segments k) := by
  constructor
  · intro k hk
    simp only [DashStream.cleanup_old_segments] at hk
    rw [mem_segKeys_foldl_erase] at hk
    obtain ⟨hmem, hnot⟩ := hk
    intro hlt
    exact hnot (List.mem_filter.mpr ⟨hmem, by simpa using hlt⟩)
  · intro k
    simp only [DashStream.cleanup_old_segments]
    rw [segLookup_foldl_erase]
    by_cases hlt : k < s.current_segment - s.max_segments
    · rw [if_pos hlt]
      by_cases hmem : k ∈ segKeys s.segments
      · rw [if_pos (List.mem_filter.mpr ⟨hmem, by simpa using hlt⟩)]
      · rw [if_neg (fun hin => hmem (List.mem_filter.mp hin).1)]
        rw [segLookup_none_of_not_mem s.segments k hmem]
    · rw [if_neg hlt]
      rw [if_neg (fun hin => hlt (by simpa using (List.mem_filter.mp hin).2))]

/-- Claim C4: for any session state and any `n` outside the retention band
(`n > currentSegment + maxSegments` or `n < currentSegment − maxSegments`,
clamped at 0), `request_segment n` sets `currentSegment := n`, clears the
tracked map and repopulates it with exactly the interval
`[max(0, n−2), n + windowSize]`, every entry `generated = false`, and
restarts the pipeline (kill of the held child, then one spawn) at
`max(0, n−2)`. -/
theorem claim_c4_seek_repopulation (s : DashStream) (n now : Nat)
    (h : n > s.current_segment + s.max_segments ∨
         n < s.current_segment - s.max_segments) :
    (s.request_segment n now).1.current_segment = n ∧
    (s.request_segment n now).1.ffmpeg_process = some s.next_pid ∧
    (s.request_segment n now).2 =
      kills s.ffmpeg_process ++ [PEvent.spawn s.next_pid (n - 2)] ∧
    ∀ i, segLookup (s.request_segment n now).1.segments i =
      if n - 2 ≤ i ∧ i ≤ n + s.window_size then
        some { number := i, lastAccessed := now, generated := false }
      else none := by
  have hs : ({ s with last_accessed := now } : DashStream).is_seek n = true := by
    simp only [DashStream.is_seek, Bool.or_eq_true, decide_eq_true_eq]
    exact h
  refine ⟨?_, ?_, ?_, ?_⟩
  · simp [DashStream.request_segment, hs, touchSegment, restart_current]
  · simp [DashStream.request_segment, hs, touchSegment, restart_ffmpeg]
  · simp [DashStream.request_segment, hs, restart_events]
  · intro i
    simp only [DashStream.request_segment, hs, if_true, touchSegment]
    rw [segLookup_setLastAccessed]
    rw [restart_segments]
    rw [segLookup_mapValues
      (fun v => { number := v.number, lastAccessed := v.lastAccessed, generated := false })]
    rw [segLookup_insertRange]
    by_cases hi : i = n
    · subst hi
      rw [if_pos rfl, if_pos (by omega)]
      rw [if_pos (show i - 2 ≤ i ∧ i ≤ i + s.window_size by omega)]
      rfl
    · rw [if_neg hi]
      by_cases hr : n - 2 ≤ i ∧ i ≤ n + s.window_size
      · rw [if_pos hr, if_pos hr]
        rfl
      · rw [if_neg hr, if_neg hr]
        rfl

/-- Witness for C4: a seek to 40 from a fresh session (currentSegment 0,
maxSegments 30) sets currentSegment to 40. -/
theorem claim_c4_witness :
    ((DashStream.new { stem := "movie", ext := some "mp4" } 0).request_segment 40 0).1.current_segment
      = 40 :=
  (claim_c4_seek_repopulation
    (DashStream.new { stem := "movie", ext := some "mp4" } 0) 40 0
    (by decide)).1

/-- A session used to witness C10: playback is at segment 20 with a single
tracked entry, so segment 10 is untracked, inside the retention band, and
behind the window. -/
def c10_demo : DashStream :=
  { DashStream.new { stem := "movie2", ext := some "mp4" } 0 with
      current_segment := 20,
      ffmpeg_process := some 7,
      segments := [(20, { number := 20, lastAccessed := 0, generated := true })] }

/-- Claim C10: an untracked request `n` inside the retention band whose
window lies fully behind the playback position (`n + windowSize <
currentSegment`) succeeds but changes nothing except the session-level
lastAccessed: the tracked map, currentSegment and the subprocess handle are
untouched and no subprocess event is emitted. -/
theorem claim_c10_backward_noop (s : DashStream) (n now : Nat)
    (h1 : segLookup s.segments n = none)
    (h2 : s.current_segment - s.max_segments ≤ n)
    (h3 : n + s.window_size < s.current_segment) :
    (s.request_segment n now).1.segments = s.segments ∧
    (s.request_segment n now).1.current_segment = s.current_segment ∧
    (s.request_segment n now).1.ffmpeg_process = s.ffmpeg_process ∧
    (s.request_segment n now).1.last_accessed = now ∧
    (s.request_segment n now).2 = [] := by
  have hx1 : ¬ n > s.current_segment + s.max_segments := by omega
  have hx2 : ¬ n < s.current_segment - s.max_segments := by omega
  have hs : ({ s with last_accessed := now } : DashStream).is_seek n = false := by
    simp [DashStream.is_seek, hx1, hx2]
  have hc : segContains s.segments n = false := by
    simp [segContains, h1]
  have hrange : rangeIncl s.current_segment (n + s.window_size) = [] :=
    rangeIncl_eq_nil (by omega)
  have hgt : ¬ n > s.current_segment := by omega
  refine ⟨?_, ?_, ?_, ?_, ?_⟩ <;>
    simp [DashStream.request_segment, hs, hc, insertRangeIfAbsent, hrange, hgt,
      touchSegment, segSetLastAccessed_of_none s.segments n now h1]

/-- Witness for C10: requesting segment 10 on `c10_demo` (position 20) leaves
the tracked map unchanged. -/
theorem claim_c10_witness :
    (c10_demo.request_segment 10 3).1.segments = c10_demo.segments :=
  (claim_c10_backward_noop c10_demo 10 3 (by decide) (by decide) (by decide)).1

theorem mgrLookup_insert (m : List (String × DashStream)) (j : String) (v : DashStream)
    (k : String) :
    mgrLookup (mgrInsert m j v) k = if k = j then some v else mgrLookup m k := by
  induction m with
  | nil => by_cases h : k = j <;> simp [mgrInsert, mgrLookup, h]
  | cons hd tl ih =>
    obtain ⟨k0, v0⟩ := hd
    by_cases hj : j = k0
    · subst hj
      by_cases hk : k = j <;> simp [mgrInsert, mgrLookup, hk]
    · by_cases hk : k = k0
      · subst hk
        simp [mgrInsert, mgrLookup, hj, Ne.symm hj]
      · simp [mgrInsert, mgrLookup, hj, hk, ih]

theorem mgrLookup_touch (m : List (String × DashStream)) (j : String) (t : Nat) (k : String) :
    mgrLookup (mgrTouch m j t) k =
      if k = j then (mgrLookup m k).map (fun st => { st with last_accessed := t })
      else mgrLookup m k := by
  induction m with
  | nil => by_cases hk : k = j <;> simp [mgrTouch, mgrLookup, hk]
  | cons hd tl ih =>
    obtain ⟨k0, v0⟩ := hd
    by_cases h0 : k0 = j
    · subst h0
      by_cases hk : k = k0
      · subst hk
        simp [mgrTouch, mgrLookup]
      · simpa [mgrTouch, mgrLookup, hk] using ih
    · by_cases hk : k = k0
      · subst hk
        simp [mgrTouch, mgrLookup, h0, Ne.symm h0]
      · simpa [mgrTouch, mgrLookup, h0, hk] using ih

theorem mgrKeys_touch (m : List (String × DashStream)) (j : String) (t : Nat) :
    mgrKeys (mgrTouch m j t) = mgrKeys m := by
  induction m with
  | nil => rfl
  | cons hd tl ih =>
    obtain ⟨k0, v0⟩ := hd
    by_cases h0 : k0 = j <;> simp [mgrTouch, mgrKeys, h0] <;>
      simpa [mgrTouch, mgrKeys] using ih

theorem get_or_create_ok_id (m : StreamManager) (fs : RPath → Bool) (p : RPath)
    (now : Nat) (id : String) (m1 : StreamManager)
    (h : m.get_or_create_stream fs p now = Except.ok (id, m1)) :
    id = get_stream_id p ∧ mgrContains m1.streams id = true := by
  by_cases hct : mgrContains m.streams (get_stream_id p) = false
  · rcases hfs : find_source_video fs p with e | src
    · rw [StreamManager.get_or_create_stream] at h
      simp [hct, hfs] at h
    · rw [StreamManager.get_or_create_stream] at h
      simp only [hct, if_true, hfs] at h
      obtain ⟨hid, hm⟩ := Prod.mk.injEq .. ▸ (Except.ok.injEq .. ▸ h)
      refine ⟨hid.symm, ?_⟩
      subst hid
      rw [← hm]
      simp [mgrContains, mgrLookup_touch, mgrLookup_insert, Option.isSome]
  · rw [StreamManager.get_or_create_stream] at h
    simp only [hct, if_false] at h
    rw [Bool.not_eq_false] at hct
    obtain ⟨hid, hm⟩ := Prod.mk.injEq .. ▸ (Except.ok.injEq .. ▸ h)
    refine ⟨hid.symm, ?_⟩
    subst hid
    rw [← hm]
    simp only [mgrContains, mgrLookup_touch, if_pos rfl]
    simp only [mgrContains] at hct
    rcases hlk : mgrLookup m.streams (get_stream_id p) with _ | st
    · rw [hlk] at hct
      simp at hct
    · simp

/-- Claim C1 counterexample: with `movie.mp4` on disk, the manifest request
`movie.mpd` resolves to stream-id `movie`, but the media-segment request for
the same logical source — `chunk-stream0-4.m4s`, the published surface
pattern — resolves to the different stream-id `chunk-stream0-4`, and its
`get_or_create_stream` call does not return `movie`'s session: it fails
NotFound.  Manifest and segment requests for the same source therefore do
not resolve to the same Session. -/
theorem claim_c1_counterexample :
    get_stream_id chunk_path ≠ get_stream_id manifest_path ∧
    mgr0.get_or_create_stream demo_fs manifest_path 0 = Except.ok ("movie", mgr1) ∧
    mgr1.get_or_create_stream demo_fs chunk_path 0 =
      Except.error "No matching video file found" := by
  refine ⟨by decide, by rfl, by rfl⟩

/-- Claim C1 (amended): the stream-id is the requested path with its
extension stripped, and any two requests whose paths agree after stripping
the extension resolve through `get_or_create_stream` to the same Session
with no duplicate created: the second call returns the same id, only
refreshes that session's lastAccessed, and leaves the registry's key set
unchanged. -/
theorem claim_c1_amended_same_id_same_session (m : StreamManager)
    (fs fs2 : RPath → Bool) (p1 p2 : RPath) (now1 now2 : Nat)
    (id : String) (m1 : StreamManager)
    (hstem : get_stream_id p1 = get_stream_id p2)
    (h : m.get_or_create_stream fs p1 now1 = Except.ok (id, m1)) :
    m1.get_or_create_stream fs2 p2 now2 =
      Except.ok (id, { m1 with streams := mgrTouch m1.streams id now2 }) ∧
    mgrKeys (mgrTouch m1.streams id now2) = mgrKeys m1.streams := by
  obtain ⟨hid, hct⟩ := get_or_create_ok_id m fs p1 now1 id m1 h
  have hid2 : get_stream_id p2 = id := by rw [← hstem, ← hid]
  constructor
  · rw [StreamManager.get_or_create_stream]
    rw [hid2, hct]
    simp
  · exact mgrKeys_touch m1.streams id now2

/-- Witness for the amended C1: after the manifest request for `movie.mpd`,
a request for the same-stem path `movie.m4s` returns the same stream-id
`movie` and only refreshes the session. -/
theorem claim_c1_amended_witness :
    mgr1.get_or_create_stream demo_fs { stem := "movie", ext := some "m4s" } 7 =
      Except.ok ("movie", { mgr1 with streams := mgrTouch mgr1.streams "movie" 7 }) :=
  (claim_c1_amended_same_id_same_session mgr0 demo_fs demo_fs manifest_path
    { stem := "movie", ext := some "m4s" } 0 7 "movie" mgr1 (by decide) (by rfl)).1

/-- Claim C8: on a registry miss, `get_or_create_stream` probes the
candidate extensions in the fixed order mp4-then-mkv against the
filesystem, the first existing file wins as the session's source, and the
call fails NotFound exactly when neither candidate exists; every successful
call (hit or miss) leaves the returned session's lastAccessed refreshed to
the current time. -/
theorem claim_c8_get_or_create (m : StreamManager) (fs : RPath → Bool) (p : RPath)
    (now : Nat) :
    (mgrContains m.streams (get_stream_id p) = false →
      ((m.get_or_create_stream fs p now = Except.error "No matching video file found") ↔
        (fs ((p.withExtension "").withExtension "mp4") = false ∧
         fs ((p.withExtension "").withExtension "mkv") = false))) ∧
    (mgrContains m.streams (get_stream_id p) = false →
      fs ((p.withExtension "").withExtension "mp4") = true →
      ∃ m2, m.get_or_create_stream fs p now = Except.ok (get_stream_id p, m2) ∧
        (mgrLookup m2.streams (get_stream_id p)).map DashStream.source_path =
          some ((p.withExtension "").withExtension "mp4")) ∧
    (mgrContains m.streams (get_stream_id p) = false →
      fs ((p.withExtension "").withExtension "mp4") = false →
      fs ((p.withExtension "").withExtension "mkv") = true →
      ∃ m2, m.get_or_create_stream fs p now = Except.ok (get_stream_id p, m2) ∧
        (mgrLookup m2.streams (get_stream_id p)).map DashStream.source_path =
          some ((p.withExtension "").withExtension "mkv")) ∧
    (∀ id m2, m.get_or_create_stream fs p now = Except.ok (id, m2) →
      (mgrLookup m2.streams id).map DashStream.last_accessed = some now) := by
  refine ⟨?_, ?_, ?_, ?_⟩
  · intro hct
    cases hfs1 : fs ((p.withExtension "").withExtension "mp4") with
    | true =>
      simp [StreamManager.get_or_create_stream, find_source_video, hct, hfs1]
    | false =>
      cases hfs2 : fs ((p.withExtension "").withExtension "mkv") with
      | true =>
        simp [StreamManager.get_or_create_stream, find_source_video, hct, hfs1, hfs2]
      | false =>
        simp [StreamManager.get_or_create_stream, find_source_video, hct, hfs1, hfs2]
  · intro hct hfs1
    refine ⟨{ m with
        streams := mgrTouch
          (mgrInsert m.streams (get_stream_id p)
            (DashStream.new ((p.withExtension "").withExtension "mp4") now))
          (get_stream_id p) now },
      ?_, ?_⟩
    · simp [StreamManager.get_or_create_stream, find_source_video, hct, hfs1]
    · simp [mgrLookup_touch, mgrLookup_insert, DashStream.new]
  · intro hct hfs1 hfs2
    refine ⟨{ m with
        streams := mgrTouch
          (mgrInsert m.streams (get_stream_id p)
            (DashStream.new ((p.withExtension "").withExtension "mkv") now))
          (get_stream_id p) now },
      ?_, ?_⟩
    · simp [StreamManager.get_or_create_stream, find_source_video, hct, hfs1, hfs2]
    · simp [mgrLookup_touch, mgrLookup_insert, DashStream.new]
  · intro id m2 h
    by_cases hct : mgrContains m.streams (get_stream_id p) = false
    · rcases hfs : find_source_video fs p with e | src
      · rw [StreamManager.get_or_create_stream] at h
        simp [hct, hfs] at h
      · rw [StreamManager.get_or_create_stream] at h
        simp only [hct, if_true, hfs] at h
        obtain ⟨hid, hm⟩ := Prod.mk.injEq .. ▸ (Except.ok.injEq .. ▸ h)
        subst hid
        rw [← hm]
        simp [mgrLookup_touch, mgrLookup_insert, DashStream.new]
    · rw [StreamManager.get_or_create_stream] at h
      simp only [hct, if_false] at h
      rw [Bool.not_eq_false] at hct
      obtain ⟨hid, hm⟩ := Prod.mk.injEq .. ▸ (Except.ok.injEq .. ▸ h)
      subst hid
      rw [← hm]
      simp only [mgrContains] at hct
      rcases hlk : mgrLookup m.streams (get_stream_id p) with _ | st
      · rw [hlk] at hct
        simp at hct
      · simp [mgrLookup_touch, hlk]

/-- Witness for C8: on an empty registry and a filesystem with no files at
all, the manifest request fails NotFound. -/
theorem claim_c8_witness :
    mgr0.get_or_create_stream (fun _ => false) manifest_path 0 =
      Except.error "No matching video file found" :=
  ((claim_c8_get_or_create mgr0 (fun _ => false) manifest_path 0).1
    (by decide)).mpr ⟨rfl, rfl⟩

/-- Claim C9: a pipeline launch returns an error — and hence no subprocess
handle for the caller to retain — whenever the input path does not encode
(immediately, as InvalidInput), the synchronous stage-1 segmentation pass
exits non-zero, or the stage-2 packaging spawn fails; it succeeds exactly
when all three steps succeed. -/
theorem claim_c9_pipeline_errors (env : PipelineEnv) (pid start : Nat) :
    (env.path_encodable = false →
      init_dash_pipeline_from_segment env pid start =
        Except.error PipelineError.invalidInput) ∧
    (env.path_encodable = true → env.stage1_success = false →
      init_dash_pipeline_from_segment env pid start =
        Except.error PipelineError.segmentationFailed) ∧
    (env.path_encodable = true → env.stage1_success = true →
      env.stage2_spawn_ok = false →
      init_dash_pipeline_from_segment env pid start =
        Except.error PipelineError.spawnFailed) ∧
    ((init_dash_pipeline_from_segment env pid start).isOk = true ↔
      (env.path_encodable = true ∧ env.stage1_success = true ∧
       env.stage2_spawn_ok = true)) := by
  obtain ⟨pe, s1, s2⟩ := env
  cases pe <;> cases s1 <;> cases s2 <;>
    simp [init_dash_pipeline_from_segment, Except.isOk, Except.toBool]

/-- Witness for C9: with a valid path and a failing stage-1 run, the launch
reports the segmentation failure and yields no handle. -/
theorem claim_c9_witness :
    init_dash_pipeline_from_segment
        { path_encodable := true, stage1_success := false, stage2_spawn_ok := true } 0 0 =
      Except.error PipelineError.segmentationFailed :=
  (claim_c9_pipeline_errors
    { path_encodable := true, stage1_success := false, stage2_spawn_ok := true } 0 0).2.1
    rfl rfl

/-- Claim C2 (code evaluated at the failing input): the facade's
segment-name parser rejects the published surface pattern
`chunk-stream<rep>-<N>.m4s` — for `chunk-stream0-4.m4s` it yields no
segment number, so `serve_segment` answers BadRequest without calling
`request_segment`; the only names it accepts have the form `chunk-<N>.m4s`,
which the pipeline's own `chunk-stream$RepresentationID$-$Number$.webm`
naming template never produces. -/
theorem claim_c2_parser_rejects_published_pattern :
    parse_segment_number "chunk-stream0-4.m4s" = none ∧
    serve_segment_action "chunk-stream0-4.m4s" = ServeSegmentAction.rejected ∧
    parse_segment_number "chunk-5.m4s" = some 5 ∧
    serve_segment_action "chunk-5.m4s" = ServeSegmentAction.requested 5 := by
  refine ⟨?_, ?_, ?_, ?_⟩ <;> decide

/-- Claim C3 counterexample: from a freshly initialized session
(currentSegment 0, windowSize 5, tracked window {0..4}) the sequential
request for segment 5 restarts the pipeline, yet 5 does not exceed
currentSegment + windowSize = 5 — the restart comes one request earlier
than the claim allows. -/
theorem claim_c3_counterexample :
    (afterSequential4.request_segment 5 0).2 ≠ [] ∧
    ¬ 5 > afterSequential4.current_segment + afterSequential4.window_size := by
  refine ⟨by decide, by decide⟩

/-- Claim C3 (amended): starting from a freshly initialized session, the
sequential requests 0,1,2,3,4 cause no pipeline restart; the first restart
happens at the request for segment 5, which equals (rather than exceeds)
currentSegment + windowSize; and after that window fulfillment the tracked
segments with generated = true are exactly the interval
[currentSegment, currentSegment + windowSize] = [5, 10]. -/
theorem claim_c3_amended_first_restart_at_window_edge :
    (runRequests freshInitSession [0, 1, 2, 3, 4]).2 = [] ∧
    (afterSequential4.request_segment 5 0).2 = [PEvent.kill 0, PEvent.spawn 1 5] ∧
    afterSequential4.current_segment + afterSequential4.window_size = 5 ∧
    (afterSequential4.request_segment 5 0).1.current_segment = 5 ∧
    generatedKeys (afterSequential4.request_segment 5 0).1 =
      Finset.Icc (afterSequential4.request_segment 5 0).1.current_segment
        ((afterSequential4.request_segment 5 0).1.current_segment +
          (afterSequential4.request_segment 5 0).1.window_size) := by
  refine ⟨by decide, by decide, by decide, by decide, by decide⟩
